import Mathlib

/-!
Formal model of `src/kodaikanal_calendar_3.py`, a Streamlit page that renders a
Monday-first month grid and, for a selected day, astronomy data for Kodaikanal.

The embedding covers:
* the proleptic Gregorian date arithmetic behind Python's `calendar.monthcalendar`
  (with `setfirstweekday(MONDAY)`, line 12) and `datetime.date`;
* the selected-day resolution performed on every render (lines 67-91): session
  initialisation, query-parameter parsing inside a try/except, and the
  conditional state update;
* the day-cell links emitted by `render_calendar_html` (line 144);
* the ephem wrappers `get_rise_set` (lines 161-170) and `get_zenith`
  (lines 172-177), with the library calls abstracted as oracle outcomes;
* `describe_moon_phase` (lines 179-195);
* the module-level try/except around the astronomy block (lines 197-258),
  with the external library calls abstracted as oracle outcomes.
-/

namespace Kodai

/-- A calendar date `(year, month, day)` as stored in
`st.session_state.selected_day` (a Python `datetime.date`). -/
structure Date where
  year : Nat
  month : Nat
  day : Nat
deriving DecidableEq

/-- Gregorian leap-year rule, as in Python's `calendar.isleap`. -/
def isLeap (y : Nat) : Bool :=
  y % 4 == 0 && (y % 100 != 0 || y % 400 == 0)

/-- Days in a month of the proleptic Gregorian calendar (Python
`calendar.monthrange` / `datetime`'s `days_in_month`). -/
def daysInMonth (y m : Nat) : Nat :=
  if m = 2 then (if isLeap y then 29 else 28)
  else if m = 4 ∨ m = 6 ∨ m = 9 ∨ m = 11 then 30
  else 31

/-- Days in all years before year `y` (Python `datetime._days_before_year`). -/
def daysBeforeYear (y : Nat) : Nat :=
  365 * (y - 1) + (y - 1) / 4 - (y - 1) / 100 + (y - 1) / 400

/-- Days in year `y` before month `m` (Python `datetime._days_before_month`). -/
def daysBeforeMonth (y m : Nat) : Nat :=
  ((List.range' 1 (m - 1)).map (daysInMonth y)).sum

/-- Proleptic Gregorian ordinal of a date; `toOrdinal 1 1 1 = 1`
(Python `date.toordinal`). -/
def toOrdinal (y m d : Nat) : Nat :=
  daysBeforeYear y + daysBeforeMonth y m + d

/-- Monday-based weekday (Monday = 0 ... Sunday = 6) of the first day of the
month, which is also the number of leading blank cells of the grid when the
calendar is configured with `setfirstweekday(MONDAY)` (source line 12);
`date(1,1,1)` is a Monday, so the weekday is `(ordinal + 6) % 7`. -/
def firstWeekday (y m : Nat) : Nat :=
  (toOrdinal y m 1 + 6) % 7

/-- Split a flat list of day cells into weeks of 7, as `calendar.monthcalendar`
returns them. -/
def chunk7 : List Nat → List (List Nat)
  | [] => []
  | a :: b :: c :: d :: e :: f :: g :: rest => [a, b, c, d, e, f, g] :: chunk7 rest
  | l => [l]

/-- Python's `calendar.monthcalendar(year, month)` with first weekday Monday
(source line 62): leading blank (0) cells up to the first day's weekday, the
days `1..n`, and trailing blanks completing the last week. -/
def monthcalendar (y m : Nat) : List (List Nat) :=
  let n := daysInMonth y m
  let k := firstWeekday y m
  let pad := (7 - (k + n) % 7) % 7
  chunk7 (List.replicate k 0 ++ List.range' 1 n ++ List.replicate pad 0)

/-! ### Selected-day resolution (source lines 67-91)

Each render runs: session-state initialisation (lines 67-73), then the
query-parameter block (lines 77-91) which parses `year`, `month` and
`selected_day` with `int(...)` inside a try/except, compares the parsed triple
with the stored date, and on a difference stores `date(q_year, q_month, q_day)`
and reruns; any exception (malformed `int`, or `date(...)` raising
`ValueError`) is swallowed by `except Exception: pass`. -/

/-- A query-parameter string value, abstracted by what Python's `int()` does
with it: either `int` raises `ValueError` (`malformed`) or returns `num k`.
This is all the source observes of the raw string. -/
inductive QVal where
  | malformed : QVal
  | num : Int → QVal
deriving DecidableEq

/-- The query parameters the script reads: first values of `year`, `month` and
`selected_day`, each possibly absent. -/
structure QueryParams where
  year : Option QVal
  month : Option QVal
  selected_day : Option QVal
deriving DecidableEq

/-- `int(query_params.get(key, [str(dflt)])[0])` as an `Except`: an absent
parameter falls back to `str(dflt)`, and `int(str(k)) = k`; a malformed value
makes `int` raise `ValueError` (lines 79-84). -/
def pyIntQ : Option QVal → Int → Except Unit Int
  | none, dflt => .ok dflt
  | some .malformed, _ => .error ()
  | some (.num k), _ => .ok k

/-- Python's `date(y, m, d)` constructor: `some` on a valid proleptic Gregorian
date with year in `[1, 9999]`, `none` when it raises `ValueError`. -/
def mkDate (y m d : Int) : Option Date :=
  if 1 ≤ y ∧ y ≤ 9999 ∧ 1 ≤ m ∧ m ≤ 12 ∧ 1 ≤ d ∧ d ≤ daysInMonth y.toNat m.toNat
  then some ⟨y.toNat, m.toNat, d.toNat⟩
  else none

/-- `next((d for w in calendar_data for d in w if d != 0), 1)` (line 72). -/
def firstNonzeroDay (y m : Nat) : Nat :=
  (((monthcalendar y m).flatten).find? (fun d => d != 0)).getD 1

/-- Session-state initialisation (lines 67-73): if no `selected_day` is stored
yet, store today when the displayed `(year, month)` is the current one, else
the first non-blank day of the displayed grid. Returns the stored value
(line 75). -/
def initSession (session : Option Date) (y m : Nat) (today : Date) : Date :=
  match session with
  | some d => d
  | none =>
    if y = today.year ∧ m = today.month then today
    else ⟨y, m, firstNonzeroDay y m⟩

/-- Body of the `try:` block in lines 83-89, given the stored date `sel` and
the displayed `(y, m)`: parse the three parameters, and when the parsed triple
differs from the stored one, build `date(q_year, q_month, q_day)` — which may
raise. Returns `some d` when the state is updated to `d` (and the script
reruns), `none` when the triple already matches. -/
def tryBody (sel : Date) (y m : Nat) (qp : QueryParams) :
    Except Unit (Option Date) :=
  match pyIntQ qp.year y with
  | .error e => .error e
  | .ok qy =>
    match pyIntQ qp.month m with
    | .error e => .error e
    | .ok qm =>
      match pyIntQ qp.selected_day sel.day with
      | .error e => .error e
      | .ok qd =>
        if (qy, qm, qd) ≠ ((sel.year : Int), (sel.month : Int), (sel.day : Int))
        then
          match mkDate qy qm qd with
          | some d => .ok (some d)
          | none => .error ()
        else .ok none

/-- The query-parameter block (lines 77-91): run the `try:` body; `except
Exception: pass` keeps the stored value on any exception. Returns the stored
date after the block and whether `st.experimental_rerun()` was triggered by a
state update. -/
def resolveQuery (sel : Date) (y m : Nat) (qp : QueryParams) : Date × Bool :=
  match tryBody sel y m qp with
  | .ok (some d) => (d, true)
  | .ok none => (sel, false)
  | .error _ => (sel, false)

/-- One render pass of the selection logic (lines 67-91): initialise the
session if needed, then apply the query-parameter block. The first component
is the stored (= displayed) selected date after the pass. -/
def resolveRender (session : Option Date) (y m : Nat) (qp : QueryParams)
    (today : Date) : Date × Bool :=
  resolveQuery (initSession session y m today) y m qp

/-- The query string of the anchor a day cell carries (line 144):
`?selected_day={day}&year={year}&month={month_index}`. Clicking it navigates
to this query string, replacing whatever query parameters were present. -/
def clickParams (y m d : Nat) : QueryParams :=
  ⟨some (.num y), some (.num m), some (.num d)⟩

/-- The anchors rendered by `render_calendar_html` (lines 129-146): one per
non-blank cell of the grid, carrying that cell's day. -/
def dayCellLinks (y m : Nat) : List QueryParams :=
  ((monthcalendar y m).flatten.filter (fun d => d != 0)).map (clickParams y m)

/-- The spec's rule-3/rule-4 default, to compare the code against.
Modelled from the spec: "if the displayed month/year equals the real-world
current month/year, default to today's day-of-month; otherwise default to
day 1". -/
def specRule34Default (y m : Nat) (today : Date) : Date :=
  if y = today.year ∧ m = today.month then today else ⟨y, m, 1⟩

/-- Validity of a stored date: what Python's `date` constructor enforces. -/
def ValidDate (d : Date) : Prop :=
  1 ≤ d.year ∧ d.year ≤ 9999 ∧ 1 ≤ d.month ∧ d.month ≤ 12 ∧
    1 ≤ d.day ∧ d.day ≤ daysInMonth d.year d.month

instance (d : Date) : Decidable (ValidDate d) := by
  unfold ValidDate; infer_instance

/-! ### Astronomy facade (source lines 154-258) -/

/-- Outcomes of a pyephem `next_rising` / `next_setting` / `next_transit`
call: a time (abstracted as a nonnegative number, with `0` the falsy epoch
value), or one of the exceptions the source distinguishes. -/
inductive EphemError where
  | alwaysUp
  | neverUp
  | other
deriving DecidableEq

/-- The `try/except (ephem.AlwaysUpError, ephem.NeverUpError)` pattern of
lines 162-169 and 173-176: those two exceptions become `None`; any other
exception propagates. -/
def catchUpDown : Except EphemError Nat → Except EphemError (Option Nat)
  | .ok t => .ok (some t)
  | .error .alwaysUp => .ok none
  | .error .neverUp => .ok none
  | .error .other => .error .other

/-- A value handed to the UI: a datetime, or the string literal `"N/A"`. -/
inductive RS where
  | time : Nat → RS
  | na : RS
deriving DecidableEq

/-- `x.datetime() if x else "N/A"` (lines 170, 177): `None` and the falsy
zero date render as `"N/A"`. -/
def rsVal : Option Nat → RS
  | some t => if t ≠ 0 then RS.time t else RS.na
  | none => RS.na

/-- `get_rise_set(observer, body)` (lines 161-170), with the two library calls
abstracted as their outcomes. -/
def get_rise_set (riseRes setRes : Except EphemError Nat) :
    Except EphemError (RS × RS) :=
  match catchUpDown riseRes with
  | .error e => .error e
  | .ok rise =>
    match catchUpDown setRes with
    | .error e => .error e
    | .ok set_ => .ok (rsVal rise, rsVal set_)

/-- `get_zenith(observer, body)` (lines 172-177). -/
def get_zenith (transitRes : Except EphemError Nat) : Except EphemError RS :=
  match catchUpDown transitRes with
  | .error e => .error e
  | .ok transit => .ok (rsVal transit)

/-- `describe_moon_phase(illum)` (lines 179-195), with the float illumination
percentage modelled as a rational. -/
def describe_moon_phase (illum : ℚ) : String :=
  if illum < 1 then "New Moon"
  else if illum < 50 then "Waxing Crescent"
  else if illum = 50 then "First Quarter"
  else if illum < 99 then "Waxing Gibbous"
  else if illum ≥ 99 then "Full Moon"
  else if illum > 50 then "Waning Gibbous"
  else if illum = 50 then "Last Quarter"
  else "Waning Crescent"

/-- The page fragments the astronomy block can emit (lines 237-258). -/
inductive PageItem where
  | header
  | sunExpander
  | moonExpander
  | planetsExpander
  | errorBanner
deriving DecidableEq

/-- The `for pname, pbody in planets.items()` loop (lines 231-235): the bodies
are computed in order and the first library exception aborts the loop. -/
def runPlanets : List (Except Unit Unit) → Except Unit Unit
  | [] => .ok ()
  | r :: rest =>
    match r with
    | .error e => .error e
    | .ok _ => runPlanets rest

/-- The body of the module-level `try:` (lines 197-255): the Sun computation,
the Moon computations, the planets loop, and only then the display writes.
Each external computation is abstracted as its outcome. -/
def astroBody (sunRes moonRes : Except Unit Unit)
    (planetRes : List (Except Unit Unit)) : Except Unit (List PageItem) :=
  match sunRes with
  | .error e => .error e
  | .ok _ =>
    match moonRes with
    | .error e => .error e
    | .ok _ =>
      match runPlanets planetRes with
      | .error e => .error e
      | .ok _ =>
        .ok [PageItem.header, PageItem.sunExpander, PageItem.moonExpander,
          PageItem.planetsExpander]

/-- The module-level `try/except` (lines 197-258): on any exception the whole
astronomy block is replaced by the single `st.error` banner (line 258). -/
def astroRender (sunRes moonRes : Except Unit Unit)
    (planetRes : List (Except Unit Unit)) : List PageItem :=
  match astroBody sunRes moonRes planetRes with
  | .ok items => items
  | .error _ => [PageItem.errorBanner]

/-! ### Structure of the month grid -/

/-- `chunk7` repeatedly peels the first seven cells off. -/
theorem chunk7_eq (l : List Nat) :
    chunk7 l = if l = [] then [] else l.take 7 :: chunk7 (l.drop 7) := by
  match l with
  | [] => rfl
  | [a] => rfl
  | [a, b] => rfl
  | [a, b, c] => rfl
  | [a, b, c, d] => rfl
  | [a, b, c, d, e] => rfl
  | [a, b, c, d, e, f] => rfl
  | a :: b :: c :: d :: e :: f :: g :: rest => rfl


theorem chunk7_join (l : List Nat) : (chunk7 l).flatten = l := by
  induction l using chunk7.induct <;> simp_all [chunk7]

theorem chunk7_mem_length (l : List Nat) (hdvd : l.length % 7 = 0) :
    ∀ w ∈ chunk7 l, w.length = 7 := by
  induction l using chunk7.induct with
  | case1 => simp [chunk7]
  | case2 a b c d e f g rest ih =>
    intro w hw
    rw [chunk7] at hw
    rcases List.mem_cons.mp hw with hw | hw
    · subst hw; rfl
    · refine ih ?_ w hw
      simp [List.length_cons] at hdvd ⊢
      omega
  | case3 l h1 h2 =>
    intro w hw
    exfalso
    rcases l with _ | ⟨a, l⟩
    · exact h1 rfl
    rcases l with _ | ⟨b, l⟩
    · simp at hdvd
    rcases l with _ | ⟨c, l⟩
    · simp at hdvd
    rcases l with _ | ⟨d, l⟩
    · simp at hdvd
    rcases l with _ | ⟨e, l⟩
    · simp at hdvd
    rcases l with _ | ⟨f, l⟩
    · simp at hdvd
    rcases l with _ | ⟨g, l⟩
    · simp at hdvd
    · exact h2 a b c d e f g l rfl

/-- The flattened month grid is: leading blanks, the days `1..n`, trailing
blanks. -/
theorem monthcalendar_join (y m : Nat) :
    (monthcalendar y m).flatten =
      List.replicate (firstWeekday y m) 0 ++
        List.range' 1 (daysInMonth y m) ++
        List.replicate ((7 - (firstWeekday y m + daysInMonth y m) % 7) % 7) 0 := by
  simp only [monthcalendar]
  exact chunk7_join _

theorem monthcalendar_week_length (y m : Nat) :
    ∀ w ∈ monthcalendar y m, w.length = 7 := by
  apply chunk7_mem_length
  simp [List.length_replicate, List.length_range']
  omega

/-- The non-blank cells of the grid, in order, are exactly `1..n`. -/
theorem monthcalendar_filter (y m : Nat) :
    ((monthcalendar y m).flatten.filter (fun d => d != 0)) =
      List.range' 1 (daysInMonth y m) := by
  rw [monthcalendar_join]
  have hrep : ∀ k : Nat, (List.replicate k 0).filter (fun d => d != 0) = [] := by
    intro k
    rw [List.filter_eq_nil_iff]
    intro a ha
    rw [List.eq_of_mem_replicate ha]
    simp
  have hrange : (List.range' 1 (daysInMonth y m)).filter (fun d => d != 0) =
      List.range' 1 (daysInMonth y m) := by
    rw [List.filter_eq_self]
    intro a ha
    have := (List.mem_range'_1.mp ha).1
    simp; omega
  simp [List.filter_append, hrep, hrange]

/-- Every month has at least 28 days. -/
theorem daysInMonth_pos (y m : Nat) : 28 ≤ daysInMonth y m := by
  unfold daysInMonth
  split
  · split <;> omega
  · split <;> omega


/-! ### Properties of the selection resolution -/

/-- A date built by `mkDate` is valid and its fields are the given numbers. -/
theorem mkDate_valid {y m d : Int} {dd : Date} (h : mkDate y m d = some dd) :
    ValidDate dd ∧ (dd.year : Int) = y ∧ (dd.month : Int) = m ∧
      (dd.day : Int) = d := by
  unfold mkDate at h
  split at h
  case isTrue hc =>
    obtain ⟨h1, h2, h3, h4, h5, h6⟩ := hc
    cases h
    refine ⟨⟨?_, ?_, ?_, ?_, ?_, ?_⟩, ?_, ?_, ?_⟩ <;> simp <;> omega
  case isFalse => exact absurd h (by simp)

/-- Reparsing with the previously parsed value as the fallback gives the same
value (`int(str(k)) = k` when the parameter is absent, unchanged otherwise). -/
theorem pyIntQ_idem {v : Option QVal} {a x : Int} (h : pyIntQ v a = .ok x) :
    pyIntQ v x = .ok x := by
  match v with
  | none => cases h; rfl
  | some .malformed => exact absurd h (by simp [pyIntQ])
  | some (.num k) => exact h

/-- Each render either leaves the stored date untouched (possibly because the
try-block raised) or replaces it by a valid date whose fields are exactly the
three parsed parameters. -/
theorem resolveQuery_cases (sel : Date) (y m : Nat) (qp : QueryParams) :
    resolveQuery sel y m qp = (sel, false) ∨
      ∃ d : Date, resolveQuery sel y m qp = (d, true) ∧ ValidDate d ∧
        pyIntQ qp.year y = .ok d.year ∧ pyIntQ qp.month m = .ok d.month ∧
        pyIntQ qp.selected_day sel.day = .ok d.day := by
  unfold resolveQuery tryBody
  cases hy : pyIntQ qp.year ↑y with
  | error e => left; rfl
  | ok qy =>
    cases hm : pyIntQ qp.month ↑m with
    | error e => left; rfl
    | ok qm =>
      cases hd : pyIntQ qp.selected_day ↑sel.day with
      | error e => left; rfl
      | ok qd =>
        by_cases heq : (qy, qm, qd) =
            ((sel.year : Int), (sel.month : Int), (sel.day : Int))
        · left; simp [heq]
        · cases hmk : mkDate qy qm qd with
          | none => left; simp [heq, hmk]
          | some d =>
            right
            obtain ⟨hv, h1, h2, h3⟩ := mkDate_valid hmk
            refine ⟨d, by simp [heq, hmk], hv, ?_, ?_, ?_⟩
            · rw [h1]
            · rw [h2]
            · rw [h3]

/-- The first non-blank cell of any month grid is day 1. -/
theorem firstNonzeroDay_eq_one (y m : Nat) : firstNonzeroDay y m = 1 := by
  unfold firstNonzeroDay
  rw [monthcalendar_join]
  have h28 := daysInMonth_pos y m
  obtain ⟨n, hn⟩ : ∃ n, daysInMonth y m = n + 1 := ⟨daysInMonth y m - 1, by omega⟩
  rw [hn, List.range'_succ]
  have hrep : (List.replicate (firstWeekday y m) 0).find? (fun d => d != 0)
      = none := by
    rw [List.find?_eq_none]
    intro x hx
    rw [List.eq_of_mem_replicate hx]
    simp
  rw [List.append_assoc, List.find?_append, hrep]
  simp

/-- The date stored by the initialisation block is valid whenever today is. -/
theorem initSession_valid (s : Option Date) (y m : Nat) (today : Date)
    (hs : ∀ p, s = some p → ValidDate p)
    (hy1 : 1 ≤ y) (hy2 : y ≤ 9999) (hm1 : 1 ≤ m) (hm2 : m ≤ 12)
    (ht : ValidDate today) :
    ValidDate (initSession s y m today) := by
  rcases s with _ | p
  · show ValidDate (if y = today.year ∧ m = today.month then today
      else ⟨y, m, firstNonzeroDay y m⟩)
    rw [firstNonzeroDay_eq_one]
    split_ifs with h
    · exact ht
    · have h28 := daysInMonth_pos y m
      exact ⟨hy1, hy2, hm1, hm2, by simp, by simp; omega⟩
  · exact hs p rfl

/-- When all three parameters parse, the try-block reduces to the
compare-and-construct step. -/
theorem tryBody_eq_of_parse (sel : Date) (y m : Nat) (qp : QueryParams)
    (qy qm qd : Int)
    (hy : pyIntQ qp.year y = .ok qy) (hm : pyIntQ qp.month m = .ok qm)
    (hd : pyIntQ qp.selected_day sel.day = .ok qd) :
    tryBody sel y m qp =
      if (qy, qm, qd) ≠ ((sel.year : Int), (sel.month : Int), (sel.day : Int))
      then
        match mkDate qy qm qd with
        | some d => Except.ok (some d)
        | none => Except.error ()
      else .ok none := by
  unfold tryBody
  rw [hy, hm, hd]

/-- When the parameters parse back to the stored date itself, the try-block
is a no-op. -/
theorem tryBody_self (sel : Date) (y m : Nat) (qp : QueryParams)
    (hy : pyIntQ qp.year y = .ok sel.year)
    (hm : pyIntQ qp.month m = .ok sel.month)
    (hd : pyIntQ qp.selected_day sel.day = .ok sel.day) :
    tryBody sel y m qp = .ok none := by
  rw [tryBody_eq_of_parse sel y m qp _ _ _ hy hm hd,
    if_neg (not_not_intro rfl)]

/-- With no query parameters at all, a stored date matching the displayed
month and year is left untouched. -/
theorem resolveQuery_noparams (sel : Date) (y m : Nat)
    (h1 : sel.year = y) (h2 : sel.month = m) :
    resolveQuery sel y m ⟨none, none, none⟩ = (sel, false) := by
  unfold resolveQuery
  rw [tryBody_self sel y m ⟨none, none, none⟩ (by rw [h1]; rfl)
    (by rw [h2]; rfl) rfl]

/-- The query-parameter block is idempotent: running it again on its own
output changes nothing and triggers no rerun. -/
theorem resolveQuery_idem (sel : Date) (y m : Nat) (qp : QueryParams) :
    resolveQuery (resolveQuery sel y m qp).1 y m qp =
      ((resolveQuery sel y m qp).1, false) := by
  rcases resolveQuery_cases sel y m qp with h | ⟨d, hd, _, hyy, hmm, hdd⟩
  · rw [h]
    simpa using h
  · rw [hd]
    show resolveQuery d y m qp = (d, false)
    unfold resolveQuery
    rw [tryBody_self d y m qp hyy hmm (pyIntQ_idem hdd)]

/-- The planets loop succeeds exactly when every body's computation does. -/
theorem runPlanets_ok (l : List (Except Unit Unit)) :
    runPlanets l = if l.all Except.isOk then .ok () else .error () := by
  induction l with
  | nil => rfl
  | cons r rest ih =>
    cases r with
    | error e => cases e; simp [runPlanets, Except.isOk, Except.toBool]
    | ok a => cases a; simp [runPlanets, ih, Except.isOk, Except.toBool]

/-! ### The claims -/

/-- Claim C8: for every year in [1900, 2100] and month in [1, 12], the grid is
Monday-first (day 1 sits at the index given by the Monday-based weekday of the
first of the month), every week has exactly 7 cells, and the non-blank day
values are exactly `1..days_in_month(year, month)`, each exactly once. -/
theorem claim_C8 (y m : Nat) (hy1 : 1900 ≤ y) (hy2 : y ≤ 2100)
    (hm1 : 1 ≤ m) (hm2 : m ≤ 12) :
    (∀ w ∈ monthcalendar y m, w.length = 7) ∧
    ((monthcalendar y m).flatten.filter (fun d => d != 0)) =
      List.range' 1 (daysInMonth y m) ∧
    (∀ d, 1 ≤ d → d ≤ daysInMonth y m →
      ((monthcalendar y m).flatten.filter (fun d => d != 0)).count d = 1) ∧
    ((monthcalendar y m).flatten.drop (firstWeekday y m)).head? = some 1 := by
  refine ⟨monthcalendar_week_length y m, monthcalendar_filter y m, ?_, ?_⟩
  · intro d hd1 hd2
    rw [monthcalendar_filter]
    exact List.count_eq_one_of_mem (List.nodup_range' 1 (daysInMonth y m))
      (List.mem_range'_1.mpr ⟨hd1, by omega⟩)
  · rw [monthcalendar_join]
    have h28 := daysInMonth_pos y m
    obtain ⟨n, hn⟩ : ∃ n, daysInMonth y m = n + 1 :=
      ⟨daysInMonth y m - 1, by omega⟩
    rw [hn, List.range'_succ, List.append_assoc]
    have hlen : firstWeekday y m =
        (List.replicate (firstWeekday y m) (0 : Nat)).length := by simp
    nth_rewrite 1 [hlen]
    rw [List.drop_left]
    rfl

/-- Witness for C8 at February 2024 (leap month). -/
theorem claim_C8_witness :
    (∀ w ∈ monthcalendar 2024 2, w.length = 7) ∧
    ((monthcalendar 2024 2).flatten.filter (fun d => d != 0)) =
      List.range' 1 (daysInMonth 2024 2) ∧
    (∀ d, 1 ≤ d → d ≤ daysInMonth 2024 2 →
      ((monthcalendar 2024 2).flatten.filter (fun d => d != 0)).count d = 1) ∧
    ((monthcalendar 2024 2).flatten.drop (firstWeekday 2024 2)).head? = some 1 :=
  claim_C8 2024 2 (by norm_num) (by norm_num) (by norm_num) (by norm_num)

/-- Claim C1, as stated, is false: with a stored selection of 2024-01-31, a
displayed month of February 2024 and no query parameters, the block parses the
defaults `(2024, 2, 31)`, `date(2024, 2, 31)` raises, the exception is
swallowed, and the stored date keeps month January — outside the displayed
(year, month). -/
theorem claim_C1_counterexample :
    (resolveRender (some ⟨2024, 1, 31⟩) 2024 2 ⟨none, none, none⟩
        ⟨2024, 2, 15⟩).1 = ⟨2024, 1, 31⟩ ∧
    ((resolveRender (some ⟨2024, 1, 31⟩) 2024 2 ⟨none, none, none⟩
        ⟨2024, 2, 15⟩).1).month ≠ 2 := by
  constructor
  · rfl
  · decide

/-- Claim C1 (amended): the date the controller stores is always a valid
calendar date — its day lies in `[1, days_in_month]` of its own (year, month)
— but its (year, month) need not be the displayed one. -/
theorem claim_C1_amended (s : Option Date) (y m : Nat) (qp : QueryParams)
    (today : Date) (hs : ∀ p, s = some p → ValidDate p)
    (hy1 : 1900 ≤ y) (hy2 : y ≤ 2100) (hm1 : 1 ≤ m) (hm2 : m ≤ 12)
    (ht : ValidDate today) :
    ValidDate (resolveRender s y m qp today).1 := by
  have hinit := initSession_valid s y m today hs (by omega) (by omega) hm1 hm2 ht
  unfold resolveRender
  rcases resolveQuery_cases (initSession s y m today) y m qp with
    h | ⟨d, hd, hv, _⟩
  · rw [h]; exact hinit
  · rw [hd]; exact hv

/-- Witness for the amended C1. -/
theorem claim_C1_witness :
    ValidDate (resolveRender none 2024 3 ⟨none, none, none⟩ ⟨2024, 3, 15⟩).1 :=
  claim_C1_amended none 2024 3 ⟨none, none, none⟩ ⟨2024, 3, 15⟩
    (fun p h => nomatch h) (by norm_num) (by norm_num) (by norm_num)
    (by norm_num) (by decide)

/-- Claim C2, as stated, is false on the spec's own scenario: today is
2024-03-15, March 2024 is displayed, the stale prior selection is 2024-02-10,
and there is no click and no URL parameter; the code resolves to 2024-03-10 —
it carries the prior day value of 10 over — not to today 2024-03-15. -/
theorem claim_C2_counterexample :
    (resolveRender (some ⟨2024, 2, 10⟩) 2024 3 ⟨none, none, none⟩
        ⟨2024, 3, 15⟩).1 = ⟨2024, 3, 10⟩ ∧
    (⟨2024, 3, 10⟩ : Date) ≠ ⟨2024, 3, 15⟩ := by
  constructor
  · rfl
  · decide

/-- Claim C2 (amended): with no click and no URL parameters, a prior selection
whose (year, month) differs from the displayed one is retargeted to (displayed
year, displayed month, prior day) when that triple is a constructible date,
and otherwise kept entirely unchanged; it is never reset to today or to
day 1. -/
theorem claim_C2_amended (p : Date) (y m : Nat) (today : Date)
    (h : (p.year, p.month) ≠ (y, m)) :
    (resolveRender (some p) y m ⟨none, none, none⟩ today).1 =
      (mkDate y m p.day).getD p := by
  have hne : ¬(((y : Int), (m : Int), (p.day : Int)) =
      ((p.year : Int), (p.month : Int), (p.day : Int))) := by
    intro hc
    apply h
    simp only [Prod.mk.injEq, Nat.cast_inj] at hc
    simp [Prod.ext_iff]
    omega
  show (resolveQuery p y m ⟨none, none, none⟩).1 = (mkDate y m p.day).getD p
  unfold resolveQuery
  rw [tryBody_eq_of_parse p y m ⟨none, none, none⟩ y m p.day rfl rfl rfl,
    if_pos hne]
  cases hmk : mkDate (y : Int) (m : Int) (p.day : Int) <;> simp [hmk]

/-- Witness for the amended C2: the spec scenario input resolves to
2024-03-10. -/
theorem claim_C2_witness :
    (resolveRender (some ⟨2024, 2, 10⟩) 2024 3 ⟨none, none, none⟩
        ⟨2024, 3, 15⟩).1 = (mkDate 2024 3 10).getD ⟨2024, 2, 10⟩ :=
  claim_C2_amended ⟨2024, 2, 10⟩ 2024 3 ⟨2024, 3, 15⟩ (by decide)

/-- Claim C3, as stated, is false in its fallback part: with prior selection
2024-02-10, displayed month April 2024, today 2024-04-15 and a URL day of 31
(April has 30 days), the invalid source is discarded but the resolution keeps
the stored 2024-02-10 instead of falling through to the next-precedence
(rule 3/4) default 2024-04-15. -/
theorem claim_C3_counterexample :
    (resolveRender (some ⟨2024, 2, 10⟩) 2024 4 ⟨none, none, some (.num 31)⟩
        ⟨2024, 4, 15⟩).1 = ⟨2024, 2, 10⟩ ∧
    specRule34Default 2024 4 ⟨2024, 4, 15⟩ = ⟨2024, 4, 15⟩ ∧
    (⟨2024, 2, 10⟩ : Date) ≠ ⟨2024, 4, 15⟩ := by
  refine ⟨rfl, ?_, by decide⟩
  decide

/-- Claim C3 (amended): when any selection source raises inside the try-block
(malformed parameter or nonexistent day), the exception never escapes —
resolution completes, retains the previously stored selection unchanged, and
triggers no rerun; it does not recompute a rule-3/4 default. -/
theorem claim_C3_amended (s : Option Date) (y m : Nat) (qp : QueryParams)
    (today : Date)
    (h : tryBody (initSession s y m today) y m qp = .error ()) :
    resolveRender s y m qp today = (initSession s y m today, false) := by
  unfold resolveRender resolveQuery
  rw [h]

/-- Witness for the amended C3: a malformed `selected_day` parameter. -/
theorem claim_C3_witness :
    resolveRender (some ⟨2024, 2, 10⟩) 2024 3 ⟨none, none, some .malformed⟩
        ⟨2024, 3, 15⟩ = (⟨2024, 2, 10⟩, false) :=
  claim_C3_amended (some ⟨2024, 2, 10⟩) 2024 3 ⟨none, none, some .malformed⟩
    ⟨2024, 3, 15⟩ rfl

/-- Claim C6: on a first render (no session state, no URL parameters) the
selection initialises to today when the displayed (year, month) is the current
real-world one, and to day 1 of the displayed month otherwise; the query block
then leaves it unchanged. -/
theorem claim_C6 (y m : Nat) (today : Date) :
    resolveRender none y m ⟨none, none, none⟩ today =
      (if y = today.year ∧ m = today.month then today else ⟨y, m, 1⟩, false) := by
  have hinit : initSession none y m today =
      if y = today.year ∧ m = today.month then today else ⟨y, m, 1⟩ := by
    show (if y = today.year ∧ m = today.month then today
      else ⟨y, m, firstNonzeroDay y m⟩) = _
    rw [firstNonzeroDay_eq_one]
  show resolveQuery (initSession none y m today) y m ⟨none, none, none⟩ = _
  rw [hinit]
  split_ifs with h
  · exact resolveQuery_noparams today y m h.1.symm h.2.symm
  · exact resolveQuery_noparams ⟨y, m, 1⟩ y m rfl rfl

/-- Claim C7: resolution is idempotent — a second render with the stored
result, the same displayed (year, month), the same query parameters and no new
event returns the same selected date and does not rewrite the session state
(no rerun). -/
theorem claim_C7 (s : Option Date) (y m : Nat) (qp : QueryParams)
    (today : Date) :
    resolveRender (some (resolveRender s y m qp today).1) y m qp today =
      ((resolveRender s y m qp today).1, false) := by
  show resolveQuery (resolveQuery (initSession s y m today) y m qp).1 y m qp = _
  exact resolveQuery_idem (initSession s y m today) y m qp

/-- Claim C9: a click on a rendered day cell always wins. The cell's anchor
navigates to `?selected_day={d}&year={y}&month={m}`, replacing any URL
parameter that was present, and the resulting render stores exactly the
clicked day of the displayed month, whatever was stored before. -/
theorem claim_C9 (s : Option Date) (y m d : Nat) (today : Date)
    (hy1 : 1900 ≤ y) (hy2 : y ≤ 2100) (hm1 : 1 ≤ m) (hm2 : m ≤ 12)
    (hlink : clickParams y m d ∈ dayCellLinks y m) :
    (resolveRender s y m (clickParams y m d) today).1 = ⟨y, m, d⟩ := by
  have hd : d ∈ List.range' 1 (daysInMonth y m) := by
    unfold dayCellLinks at hlink
    rw [monthcalendar_filter] at hlink
    obtain ⟨a, ha, hae⟩ := List.mem_map.mp hlink
    have had : a = d := by
      have h1 := congrArg (fun q => q.selected_day) hae
      simp [clickParams] at h1
      exact_mod_cast h1
    rwa [had] at ha
  obtain ⟨hd1, hd2⟩ := List.mem_range'_1.mp hd
  show (resolveQuery (initSession s y m today) y m (clickParams y m d)).1 =
    ⟨y, m, d⟩
  generalize initSession s y m today = sel
  unfold resolveQuery
  rw [tryBody_eq_of_parse sel y m (clickParams y m d) y m d rfl rfl rfl]
  by_cases heq : (((y : Int), (m : Int), (d : Int)) =
      ((sel.year : Int), (sel.month : Int), (sel.day : Int)))
  · rw [if_neg (not_not_intro heq)]
    simp only [Prod.mk.injEq, Nat.cast_inj] at heq
    obtain ⟨e1, e2, e3⟩ := heq
    show sel = _
    symm
    rw [e1, e2, e3]
  · rw [if_pos heq]
    have hmk : mkDate (y : Int) (m : Int) (d : Int) = some ⟨y, m, d⟩ := by
      unfold mkDate
      rw [if_pos]
      · simp
      · refine ⟨by omega, by omega, by omega, by omega, by omega, ?_⟩
        have hty : ((y : Int)).toNat = y := by omega
        have htm : ((m : Int)).toNat = m := by omega
        rw [hty, htm]
        omega
    rw [hmk]

/-- Witness for C9: with April 2025 displayed and 2025-04-20 stored, clicking
the day-5 cell stores 2025-04-05 (the spec scenario). -/
theorem claim_C9_witness :
    (resolveRender (some ⟨2025, 4, 20⟩) 2025 4 (clickParams 2025 4 5)
        ⟨2025, 4, 20⟩).1 = ⟨2025, 4, 5⟩ :=
  claim_C9 (some ⟨2025, 4, 20⟩) 2025 4 5 ⟨2025, 4, 20⟩ (by norm_num)
    (by norm_num) (by norm_num) (by norm_num) (by decide)

/-- Claim C4: when the library reports that a rise, set or transit event does
not occur (`AlwaysUpError` / `NeverUpError`), `get_rise_set` and `get_zenith`
return normally with the explicit `"N/A"` value in the missing slot — the
exception is caught and never propagates. -/
theorem claim_C4 (rR sR tR : Except EphemError Nat)
    (hr : rR = .error .alwaysUp ∨ rR = .error .neverUp)
    (hs : sR = .error .alwaysUp ∨ sR = .error .neverUp)
    (ht : tR = .error .alwaysUp ∨ tR = .error .neverUp) :
    get_rise_set rR sR = .ok (RS.na, RS.na) ∧
    get_zenith tR = .ok RS.na ∧
    (∀ t, t ≠ 0 → get_rise_set (.ok t) sR = .ok (RS.time t, RS.na)) ∧
    (∀ t, t ≠ 0 → get_rise_set rR (.ok t) = .ok (RS.na, RS.time t)) := by
  rcases hr with hr | hr <;> rcases hs with hs | hs <;> rcases ht with ht | ht <;>
    subst hr <;> subst hs <;> subst ht <;>
    refine ⟨rfl, rfl, ?_, ?_⟩ <;> intro t htz <;>
    simp [get_rise_set, catchUpDown, rsVal, htz]

/-- Witness for C4 at concrete outcomes: rise always-up, set never-up,
transit always-up. -/
theorem claim_C4_witness :
    get_rise_set (.error .alwaysUp) (.error .neverUp) = .ok (RS.na, RS.na) ∧
    get_zenith (.error .alwaysUp) = .ok RS.na ∧
    (∀ t, t ≠ 0 →
      get_rise_set (.ok t) (.error .neverUp) = .ok (RS.time t, RS.na)) ∧
    (∀ t, t ≠ 0 →
      get_rise_set (.error .alwaysUp) (.ok t) = .ok (RS.na, RS.time t)) :=
  claim_C4 _ _ _ (Or.inl rfl) (Or.inr rfl) (Or.inl rfl)

/-- Claim C5, as stated, is false: one failing planet computation (Venus here)
aborts the whole astronomy block before any display write runs, so the
already-computed Sun section is not rendered — only the error banner is. -/
theorem claim_C5_counterexample :
    PageItem.sunExpander ∉
      astroRender (.ok ()) (.ok ())
        [.ok (), .error (), .ok (), .ok (), .ok ()] ∧
    astroRender (.ok ()) (.ok ()) [.ok (), .error (), .ok (), .ok (), .ok ()] =
      [PageItem.errorBanner] := by
  constructor
  · decide
  · rfl

/-- Claim C5 (amended): a library failure anywhere in the astronomy block is
caught by the single module-level handler and surfaced as one error banner,
but it aborts the entire astronomy display — all sections render exactly when
every computation succeeds, and none renders otherwise. -/
theorem claim_C5_amended (sunRes moonRes : Except Unit Unit)
    (planetRes : List (Except Unit Unit)) :
    astroRender sunRes moonRes planetRes =
      if sunRes.isOk && moonRes.isOk && planetRes.all Except.isOk
      then [PageItem.header, PageItem.sunExpander, PageItem.moonExpander,
        PageItem.planetsExpander]
      else [PageItem.errorBanner] := by
  cases sunRes with
  | error e => cases e; rfl
  | ok a =>
    cases a
    cases moonRes with
    | error e => cases e; rfl
    | ok b =>
      cases b
      unfold astroRender astroBody
      rw [runPlanets_ok]
      by_cases hall : planetRes.all Except.isOk
      · simp [hall, Except.isOk, Except.toBool]
      · simp [hall, Except.isOk, Except.toBool]

/-- Claim C10: on any illumination percentage in [0, 100] —in fact on any
rational at all— `describe_moon_phase` returns one of only five names, the
value 50 always yields "First Quarter", and the three waning branches are
unreachable. -/
theorem claim_C10 (q : ℚ) (h0 : 0 ≤ q) (h1 : q ≤ 100) :
    (describe_moon_phase q = "New Moon" ∨
     describe_moon_phase q = "Waxing Crescent" ∨
     describe_moon_phase q = "First Quarter" ∨
     describe_moon_phase q = "Waxing Gibbous" ∨
     describe_moon_phase q = "Full Moon") ∧
    describe_moon_phase 50 = "First Quarter" ∧
    (∀ r : ℚ, describe_moon_phase r ≠ "Waning Gibbous") ∧
    (∀ r : ℚ, describe_moon_phase r ≠ "Last Quarter") ∧
    (∀ r : ℚ, describe_moon_phase r ≠ "Waning Crescent") := by
  have hfive : ∀ r : ℚ, describe_moon_phase r = "New Moon" ∨
      describe_moon_phase r = "Waxing Crescent" ∨
      describe_moon_phase r = "First Quarter" ∨
      describe_moon_phase r = "Waxing Gibbous" ∨
      describe_moon_phase r = "Full Moon" := by
    intro r
    unfold describe_moon_phase
    split_ifs <;> simp_all
  refine ⟨hfive q, ?_, ?_, ?_, ?_⟩
  · norm_num [describe_moon_phase]
  all_goals
    intro r
    rcases hfive r with h | h | h | h | h <;> rw [h] <;> decide

/-- Witness for C10 at an in-range illumination. -/
theorem claim_C10_witness :
    (describe_moon_phase 25 = "New Moon" ∨
     describe_moon_phase 25 = "Waxing Crescent" ∨
     describe_moon_phase 25 = "First Quarter" ∨
     describe_moon_phase 25 = "Waxing Gibbous" ∨
     describe_moon_phase 25 = "Full Moon") ∧
    describe_moon_phase 50 = "First Quarter" ∧
    (∀ r : ℚ, describe_moon_phase r ≠ "Waning Gibbous") ∧
    (∀ r : ℚ, describe_moon_phase r ≠ "Last Quarter") ∧
    (∀ r : ℚ, describe_moon_phase r ≠ "Waning Crescent") :=
  claim_C10 25 (by norm_num) (by norm_num)

end Kodai
